import Mathlib

/-!
Shallow embedding of the presence-tracking backend (src/backend/main.py) and
proofs about its presence store, classification and API surface.

Time is modelled in integer seconds. The store USER_HEARTBEATS is modelled as
an insertion-ordered association list, matching the semantics of a Python
dict: assignment to an existing key updates the value in place and keeps the
position, assignment to a new key appends, iteration follows that order.
Python list.sort with a key function is a stable sort; it is modelled by the
stable List.insertionSort with a code-point lexicographic comparison on the
lowered name, which is how Python compares the str keys.
-/

namespace OnlineStatus

/-- ONLINE_TIMEOUT_SECONDS = 300 (main.py line 83). -/
def ONLINE_TIMEOUT_SECONDS : Int := 300

/-- USE_MOCK_DATA = False (main.py line 75): the status read always takes the real
heartbeat branch, never the mock branch. -/
def USE_MOCK_DATA : Bool := false

/-- One value of USER_HEARTBEATS: the fields written by post_heartbeat
(main.py lines 209-213). Every record written by the code carries all three
fields, so the .get default for activity_state never fires. -/
structure HeartbeatRecord where
  name : String
  last_seen : Int
  activity_state : String
deriving DecidableEq, Repr

/-- USER_HEARTBEATS (main.py line 125) as an insertion-ordered association list
keyed by uuid. -/
abbrev Store := List (String × HeartbeatRecord)

/-- Dict lookup, first match; stores built by the API have unique keys. -/
def dictGet : Store → String → Option HeartbeatRecord
  | [], _ => none
  | (k', v) :: rest, k => if k' = k then some v else dictGet rest k

/-- Python dict assignment d[k] = v: update in place when the key exists,
append when it does not. -/
def dictSet : Store → String → HeartbeatRecord → Store
  | [], k, v => [(k, v)]
  | (k', v') :: rest, k, v => if k' = k then (k, v) :: rest else (k', v') :: dictSet rest k v

/-- In-place mutation of the record of a key, as in d[k][field] = value;
leaves the store unchanged when the key is absent. -/
def dictUpdate : Store → String → (HeartbeatRecord → HeartbeatRecord) → Store
  | [], _, _ => []
  | (k', v) :: rest, k, f => if k' = k then (k', f v) :: rest else (k', v) :: dictUpdate rest k f

/-- Code-point lexicographic comparison of character lists: the order Python
uses when comparing str values, applied to the explicit character lists. -/
def listCharLe : List Char → List Char → Bool
  | [], _ => true
  | _ :: _, [] => false
  | a :: as, b :: bs =>
    if a.toNat = b.toNat then listCharLe as bs else decide (a.toNat < b.toNat)

/-- Sort key of the status read: name.lower() (main.py line 188), as the list of
lowered characters. -/
def lowerKey (s : String) : List Char := s.data.map Char.toLower

/-- Classification applied per record (main.py lines 173-178, duplicated at
lines 263-268 for the debug listing). -/
def classify (elapsed : Int) (activity_state : String) : String :=
  if ONLINE_TIMEOUT_SECONDS ≤ elapsed then "offline"
  else if activity_state = "idle" then "idle"
  else "online"

/-- One element of the friends list returned by the status read
(main.py lines 180-186). -/
structure FriendEntry where
  uuid : String
  name : String
  state : String
  activity_state : String
  last_seen : Int
deriving DecidableEq, Repr

/-- Builds the friends-list entry of one stored record (main.py lines 167-186). -/
def friendEntry (now : Int) (p : String × HeartbeatRecord) : FriendEntry :=
  { uuid := p.1
    name := p.2.name
    state := classify (now - p.2.last_seen) p.2.activity_state
    activity_state := p.2.activity_state
    last_seen := p.2.last_seen }

/-- Comparison of friends-list entries by the sort key name.lower()
(main.py line 188). -/
def nameKeyLe (a b : FriendEntry) : Prop :=
  listCharLe (lowerKey a.name) (lowerKey b.name) = true

instance : DecidableRel nameKeyLe :=
  fun a b => inferInstanceAs (Decidable (listCharLe (lowerKey a.name) (lowerKey b.name) = true))

/-- get_real_friends_list (main.py lines 156-189): one entry per stored record,
sorted by name.lower(). Python list.sort is a stable key sort, modelled by the
stable insertion sort. -/
def get_real_friends_list (store : Store) (now : Int) : List FriendEntry :=
  List.insertionSort nameKeyLe (store.map (friendEntry now))

/-- HeartbeatRequest after pydantic parsing (main.py lines 92-100). -/
structure HeartbeatRequest where
  uuid : String
  name : String
  activity_state : String
deriving DecidableEq, Repr

/-- HeartbeatResponse (main.py lines 102-106); the ISO timestamp string is
modelled by the underlying integer time, which determines it. -/
structure HeartbeatResponse where
  success : Bool
  message : String
  timestamp : Int
deriving DecidableEq, Repr

/-- Pattern of the activity_state field (main.py line 98). -/
def activityStatePattern (s : String) : Bool :=
  s = "online" || s = "idle" || s = "unknown"

/-- Pydantic validation of the heartbeat body (main.py lines 92-100): uuid and
name are required fields with no further constraint, activity_state defaults to
the string online and must match the pattern when present. -/
def validateHeartbeat (uuidField nameField activityField : Option String) :
    Option HeartbeatRequest :=
  match uuidField, nameField with
  | some u, some n =>
    let a := activityField.getD "online"
    if activityStatePattern a then some ⟨u, n, a⟩ else none
  | _, _ => none

/-- Failure responses of the API: 401/403 from the Bearer gate, 422 from body
validation, 404 from the debug simulate endpoints. -/
inductive ApiError where
  | authFailure
  | validationFailure
  | notFound
deriving DecidableEq, Repr

/-- verify_token (main.py lines 50-67): the supplied Bearer token must equal
API_TOKEN byte for byte; a missing Authorization header is rejected by the
HTTPBearer scheme before the handler runs. -/
def checkAuth (secret : String) (cred : Option String) : Bool :=
  match cred with
  | some t => t == secret
  | none => false

/-- Handler body of POST /heartbeat/ (main.py lines 208-218): one reading of now
is used both for the stored last_seen and for the response timestamp. -/
def post_heartbeat (store : Store) (req : HeartbeatRequest) (now : Int) :
    Store × HeartbeatResponse :=
  (dictSet store req.uuid { name := req.name, last_seen := now, activity_state := req.activity_state },
   { success := true
     message := "Heartbeat received for " ++ req.name ++ " (state: " ++ req.activity_state ++ ")"
     timestamp := now })

/-- POST /heartbeat/ including the auth gate and body validation
(main.py lines 194-218). -/
def post_heartbeat_endpoint (secret : String) (cred : Option String)
    (uuidField nameField activityField : Option String) (store : Store) (now : Int) :
    Store × Except ApiError HeartbeatResponse :=
  if checkAuth secret cred then
    match validateHeartbeat uuidField nameField activityField with
    | some req => ((post_heartbeat store req now).1, Except.ok (post_heartbeat store req now).2)
    | none => (store, Except.error ApiError.validationFailure)
  else (store, Except.error ApiError.authFailure)

/-- GET /online_status/ (main.py lines 221-240); USE_MOCK_DATA is False, so the
real branch is taken. -/
def get_online_status_endpoint (secret : String) (cred : Option String)
    (store : Store) (now : Int) : Store × Except ApiError (List FriendEntry) :=
  if checkAuth secret cred then (store, Except.ok (get_real_friends_list store now))
  else (store, Except.error ApiError.authFailure)

/-- One element of the users list of GET /debug/users (main.py lines 270-277). -/
structure DebugUserEntry where
  uuid : String
  name : String
  activity_state : String
  effective_state : String
  last_seen : Int
  elapsed_seconds : Int
deriving DecidableEq, Repr

/-- Builds the debug entry of one stored record (main.py lines 257-277); with
integral seconds, round(elapsed, 1) is the elapsed value itself. -/
def debugUserEntry (now : Int) (p : String × HeartbeatRecord) : DebugUserEntry :=
  { uuid := p.1
    name := p.2.name
    activity_state := p.2.activity_state
    effective_state := classify (now - p.2.last_seen) p.2.activity_state
    last_seen := p.2.last_seen
    elapsed_seconds := now - p.2.last_seen }

/-- Body of the GET /debug/users response (main.py lines 278-283). -/
structure DebugUsersResponse where
  total_users : Nat
  online_timeout_seconds : Int
  use_mock_data : Bool
  users : List DebugUserEntry
deriving DecidableEq, Repr

/-- Handler body of GET /debug/users (main.py lines 252-283). -/
def debug_get_users (store : Store) (now : Int) : DebugUsersResponse :=
  { total_users := (store.map (debugUserEntry now)).length
    online_timeout_seconds := ONLINE_TIMEOUT_SECONDS
    use_mock_data := USE_MOCK_DATA
    users := store.map (debugUserEntry now) }

/-- GET /debug/users including the auth gate. -/
def debug_get_users_endpoint (secret : String) (cred : Option String)
    (store : Store) (now : Int) : Store × Except ApiError DebugUsersResponse :=
  if checkAuth secret cred then (store, Except.ok (debug_get_users store now))
  else (store, Except.error ApiError.authFailure)

/-- POST /debug/clear_users (main.py lines 286-290) including the auth gate. -/
def debug_clear_users_endpoint (secret : String) (cred : Option String)
    (store : Store) : Store × Except ApiError Bool :=
  if checkAuth secret cred then ([], Except.ok true)
  else (store, Except.error ApiError.authFailure)

/-- Handler body of POST /debug/simulate_offline/uuid (main.py lines 293-300):
404 when the uuid is absent, otherwise last_seen is set ten minutes back. -/
def debug_simulate_offline (store : Store) (uuid : String) (now : Int) :
    Store × Except ApiError String :=
  if (dictGet store uuid).isSome then
    (dictUpdate store uuid (fun r => { r with last_seen := now - 600 }),
     Except.ok ("User " ++ uuid ++ " simulated as offline"))
  else (store, Except.error ApiError.notFound)

/-- Handler body of POST /debug/simulate_idle/uuid (main.py lines 303-311):
404 when the uuid is absent, otherwise activity_state becomes idle and
last_seen becomes now. -/
def debug_simulate_idle (store : Store) (uuid : String) (now : Int) :
    Store × Except ApiError String :=
  if (dictGet store uuid).isSome then
    (dictUpdate store uuid (fun r => { r with activity_state := "idle", last_seen := now }),
     Except.ok ("User " ++ uuid ++ " simulated as idle"))
  else (store, Except.error ApiError.notFound)

/-- Handler body of POST /debug/simulate_active/uuid (main.py lines 314-322):
404 when the uuid is absent, otherwise activity_state becomes online and
last_seen becomes now. -/
def debug_simulate_active (store : Store) (uuid : String) (now : Int) :
    Store × Except ApiError String :=
  if (dictGet store uuid).isSome then
    (dictUpdate store uuid (fun r => { r with activity_state := "online", last_seen := now }),
     Except.ok ("User " ++ uuid ++ " simulated as active"))
  else (store, Except.error ApiError.notFound)

/-- POST /debug/simulate_offline/uuid including the auth gate. -/
def debug_simulate_offline_endpoint (secret : String) (cred : Option String)
    (store : Store) (uuid : String) (now : Int) : Store × Except ApiError String :=
  if checkAuth secret cred then debug_simulate_offline store uuid now
  else (store, Except.error ApiError.authFailure)

/-- POST /debug/simulate_idle/uuid including the auth gate. -/
def debug_simulate_idle_endpoint (secret : String) (cred : Option String)
    (store : Store) (uuid : String) (now : Int) : Store × Except ApiError String :=
  if checkAuth secret cred then debug_simulate_idle store uuid now
  else (store, Except.error ApiError.authFailure)

/-- POST /debug/simulate_active/uuid including the auth gate. -/
def debug_simulate_active_endpoint (secret : String) (cred : Option String)
    (store : Store) (uuid : String) (now : Int) : Store × Except ApiError String :=
  if checkAuth secret cred then debug_simulate_active store uuid now
  else (store, Except.error ApiError.authFailure)

/-!
General lemmas about the lexicographic comparison, the dict operations and the
sorted status read, shared by the claim theorems below.
-/

theorem listCharLe_refl (xs : List Char) : listCharLe xs xs = true := by
  induction xs with
  | nil => rfl
  | cons a as ih => simpa [listCharLe] using ih

theorem listCharLe_total (xs ys : List Char) :
    listCharLe xs ys = true ∨ listCharLe ys xs = true := by
  induction xs generalizing ys with
  | nil => left; rfl
  | cons a as ih =>
    cases ys with
    | nil => right; rfl
    | cons b bs =>
      by_cases h : a.toNat = b.toNat
      · simp only [listCharLe, h, if_pos, if_pos h.symm]
        exact ih bs
      · have h' : ¬ b.toNat = a.toNat := fun e => h e.symm
        simp only [listCharLe, if_neg h, if_neg h']
        rcases Nat.lt_or_ge a.toNat b.toNat with hlt | hge
        · left; exact decide_eq_true hlt
        · right; exact decide_eq_true (Nat.lt_of_le_of_ne hge h')

theorem listCharLe_trans (xs ys zs : List Char)
    (h1 : listCharLe xs ys = true) (h2 : listCharLe ys zs = true) :
    listCharLe xs zs = true := by
  induction xs generalizing ys zs with
  | nil => rfl
  | cons a as ih =>
    cases ys with
    | nil => simp [listCharLe] at h1
    | cons b bs =>
      cases zs with
      | nil => simp [listCharLe] at h2
      | cons c cs =>
        simp only [listCharLe] at h1 h2 ⊢
        by_cases hab : a.toNat = b.toNat
        · rw [if_pos hab] at h1
          by_cases hbc : b.toNat = c.toNat
          · rw [if_pos hbc] at h2
            rw [if_pos (hab.trans hbc)]
            exact ih bs cs h1 h2
          · rw [if_neg hbc] at h2
            have hlt : b.toNat < c.toNat := of_decide_eq_true h2
            rw [if_neg (by omega)]
            exact decide_eq_true (by omega)
        · rw [if_neg hab] at h1
          have hlt1 : a.toNat < b.toNat := of_decide_eq_true h1
          by_cases hbc : b.toNat = c.toNat
          · rw [if_neg (by omega)]
            exact decide_eq_true (by omega)
          · rw [if_neg hbc] at h2
            have hlt2 : b.toNat < c.toNat := of_decide_eq_true h2
            rw [if_neg (by omega)]
            exact decide_eq_true (by omega)

instance : IsTotal FriendEntry nameKeyLe :=
  ⟨fun a b => listCharLe_total (lowerKey a.name) (lowerKey b.name)⟩

instance : IsTrans FriendEntry nameKeyLe :=
  ⟨fun a b c => listCharLe_trans (lowerKey a.name) (lowerKey b.name) (lowerKey c.name)⟩

theorem dictGet_dictSet_self (s : Store) (k : String) (v : HeartbeatRecord) :
    dictGet (dictSet s k v) k = some v := by
  induction s with
  | nil => simp [dictSet, dictGet]
  | cons p rest ih =>
    obtain ⟨k', v'⟩ := p
    by_cases h : k' = k
    · simp [dictSet, dictGet, h]
    · simp [dictSet, dictGet, h, ih]

theorem dictGet_dictSet_ne (s : Store) (k : String) (v : HeartbeatRecord)
    (k' : String) (h : k' ≠ k) : dictGet (dictSet s k v) k' = dictGet s k' := by
  induction s with
  | nil => simp [dictSet, dictGet, Ne.symm h]
  | cons p rest ih =>
    obtain ⟨k₀, v₀⟩ := p
    simp only [dictSet, dictGet]
    by_cases h₀ : k₀ = k
    · rw [if_pos h₀]
      simp only [dictGet]
      rw [if_neg (Ne.symm h), if_neg (show ¬ k₀ = k' by rw [h₀]; exact Ne.symm h)]
    · rw [if_neg h₀]
      simp only [dictGet]
      by_cases h₁ : k₀ = k'
      · rw [if_pos h₁, if_pos h₁]
      · rw [if_neg h₁, if_neg h₁, ih]

theorem length_dictSet_of_isSome (s : Store) (k : String) (v : HeartbeatRecord)
    (h : (dictGet s k).isSome) : (dictSet s k v).length = s.length := by
  induction s with
  | nil => simp [dictGet] at h
  | cons p rest ih =>
    obtain ⟨k₀, v₀⟩ := p
    by_cases h₀ : k₀ = k
    · simp [dictSet, h₀]
    · simp only [dictGet, if_neg h₀] at h
      simp [dictSet, h₀, ih h]

theorem mem_dictUpdate (s : Store) (k : String) (f : HeartbeatRecord → HeartbeatRecord)
    (r : HeartbeatRecord) (h : dictGet s k = some r) : (k, f r) ∈ dictUpdate s k f := by
  induction s with
  | nil => simp [dictGet] at h
  | cons p rest ih =>
    obtain ⟨k₀, v₀⟩ := p
    by_cases h₀ : k₀ = k
    · subst h₀
      simp [dictGet] at h
      subst h
      simp [dictUpdate]
    · simp only [dictGet, if_neg h₀] at h
      simp [dictUpdate, h₀, ih h]

theorem mem_get_real_friends_list (store : Store) (now : Int)
    (p : String × HeartbeatRecord) (h : p ∈ store) :
    friendEntry now p ∈ get_real_friends_list store now :=
  (List.mem_insertionSort nameKeyLe).mpr (List.mem_map_of_mem _ h)

/-- Ordering asserted by the spec for the snapshot: by case-folded display
name, with ties between equal case-folded names broken by identity. This
definition follows the words of the claim, not the source, and exists only to
be compared with get_real_friends_list. -/
def specTieBreakLe (a b : FriendEntry) : Prop :=
  (lowerKey a.name = lowerKey b.name ∧ listCharLe a.uuid.data b.uuid.data = true) ∨
  (lowerKey a.name ≠ lowerKey b.name ∧ listCharLe (lowerKey a.name) (lowerKey b.name) = true)

instance : DecidableRel specTieBreakLe :=
  fun a b => by unfold specTieBreakLe; exact inferInstance

/-- Snapshot ordered as the claim asserts, with ties broken by identity. -/
def specOrderedSnapshot (store : Store) (now : Int) : List FriendEntry :=
  List.insertionSort specTieBreakLe (store.map (friendEntry now))

/-- Store with two records whose display names tie case-insensitively and whose
identities are in the opposite order of their insertion. -/
def c3store : Store := [("b", ⟨"X", 0, "online"⟩), ("a", ⟨"x", 0, "online"⟩)]

/-- Store exercising the three classification branches at now = 300. -/
def c1wstore : Store :=
  [("u1", ⟨"Ann", 0, "online"⟩), ("u2", ⟨"Bob", 1, "idle"⟩), ("u3", ⟨"Cara", 1, "unknown"⟩)]

/-!
Claim theorems.
-/

/-- C1: a record present in the store yields its derived view entry in the
status read at time now, and the classification of that entry follows exactly
the case split: offline as soon as the elapsed time reaches the timeout,
regardless of activity_state; otherwise idle exactly when the self-reported
activity_state is idle; otherwise online (covering the active/online report,
unknown, and any other stored value). -/
theorem C1_classification (store : Store) (now : Int) (u : String) (r : HeartbeatRecord)
    (hmem : (u, r) ∈ store) :
    friendEntry now (u, r) ∈ get_real_friends_list store now ∧
    (ONLINE_TIMEOUT_SECONDS ≤ now - r.last_seen → (friendEntry now (u, r)).state = "offline") ∧
    (now - r.last_seen < ONLINE_TIMEOUT_SECONDS → r.activity_state = "idle" →
      (friendEntry now (u, r)).state = "idle") ∧
    (now - r.last_seen < ONLINE_TIMEOUT_SECONDS → r.activity_state ≠ "idle" →
      (friendEntry now (u, r)).state = "online") := by
  refine ⟨mem_get_real_friends_list store now (u, r) hmem, ?_, ?_, ?_⟩
  · intro h
    show classify (now - r.last_seen) r.activity_state = "offline"
    unfold classify
    rw [if_pos h]
  · intro h hidle
    show classify (now - r.last_seen) r.activity_state = "idle"
    unfold classify
    rw [if_neg (not_le.mpr h), if_pos hidle]
  · intro h hne
    show classify (now - r.last_seen) r.activity_state = "online"
    unfold classify
    rw [if_neg (not_le.mpr h), if_neg hne]

/-- C1 witness: at now = 300 a record heartbeated at 0 is already offline, a
fresh idle record is idle, and a fresh unknown record is online. -/
theorem C1_classification_witness :
    (friendEntry 300 ("u1", ⟨"Ann", 0, "online"⟩)).state = "offline" ∧
    (friendEntry 300 ("u2", ⟨"Bob", 1, "idle"⟩)).state = "idle" ∧
    (friendEntry 300 ("u3", ⟨"Cara", 1, "unknown"⟩)).state = "online" ∧
    friendEntry 300 ("u1", ⟨"Ann", 0, "online"⟩) ∈ get_real_friends_list c1wstore 300 :=
  ⟨(C1_classification c1wstore 300 "u1" ⟨"Ann", 0, "online"⟩ (by decide)).2.1 (by decide),
   (C1_classification c1wstore 300 "u2" ⟨"Bob", 1, "idle"⟩ (by decide)).2.2.1 (by decide) (by decide),
   (C1_classification c1wstore 300 "u3" ⟨"Cara", 1, "unknown"⟩ (by decide)).2.2.2 (by decide) (by decide),
   (C1_classification c1wstore 300 "u1" ⟨"Ann", 0, "online"⟩ (by decide)).1⟩

/-- C2 counterexample: the literal activity state active is rejected by the
pattern (the accepted token for the active case is online), and an omitted
activity state defaults to online, not active; the rejected submission writes
nothing. -/
theorem C2_counterexample :
    validateHeartbeat (some "u1") (some "Ann") (some "active") = none ∧
    validateHeartbeat (some "u1") (some "Ann") none = some ⟨"u1", "Ann", "online"⟩ ∧
    validateHeartbeat (some "u1") (some "Ann") (some "online") = some ⟨"u1", "Ann", "online"⟩ ∧
    post_heartbeat_endpoint "tok" (some "tok") (some "u1") (some "Ann") (some "active") [] 0 =
      ([], Except.error ApiError.validationFailure) :=
  ⟨rfl, rfl, rfl, rfl⟩

/-- C2 (amended): the accepted activity states are online, idle and unknown,
with online the default when the field is omitted; any other value, including
the literal active, is rejected with a validation failure and no record is
written. -/
theorem C2_validation (secret u n a : String) (store : Store) (now : Int)
    (h : a ≠ "online" ∧ a ≠ "idle" ∧ a ≠ "unknown") :
    validateHeartbeat (some u) (some n) (some a) = none ∧
    post_heartbeat_endpoint secret (some secret) (some u) (some n) (some a) store now =
      (store, Except.error ApiError.validationFailure) ∧
    validateHeartbeat (some u) (some n) none = some ⟨u, n, "online"⟩ ∧
    validateHeartbeat (some u) (some n) (some "online") = some ⟨u, n, "online"⟩ ∧
    validateHeartbeat (some u) (some n) (some "idle") = some ⟨u, n, "idle"⟩ ∧
    validateHeartbeat (some u) (some n) (some "unknown") = some ⟨u, n, "unknown"⟩ := by
  obtain ⟨h1, h2, h3⟩ := h
  have hpat : activityStatePattern a = false := by
    simp [activityStatePattern, h1, h2, h3]
  have hval : validateHeartbeat (some u) (some n) (some a) = none := by
    simp [validateHeartbeat, hpat]
  refine ⟨hval, ?_, rfl, rfl, rfl, rfl⟩
  simp [post_heartbeat_endpoint, checkAuth, hval]

/-- C2 witness: a made-up activity state is rejected and nothing is written. -/
theorem C2_validation_witness :
    validateHeartbeat (some "u9") (some "Zoe") (some "afk") = none ∧
    post_heartbeat_endpoint "tok" (some "tok") (some "u9") (some "Zoe") (some "afk") [] 0 =
      ([], Except.error ApiError.validationFailure) ∧
    validateHeartbeat (some "u9") (some "Zoe") none = some ⟨"u9", "Zoe", "online"⟩ ∧
    validateHeartbeat (some "u9") (some "Zoe") (some "online") = some ⟨"u9", "Zoe", "online"⟩ ∧
    validateHeartbeat (some "u9") (some "Zoe") (some "idle") = some ⟨"u9", "Zoe", "idle"⟩ ∧
    validateHeartbeat (some "u9") (some "Zoe") (some "unknown") = some ⟨"u9", "Zoe", "unknown"⟩ :=
  C2_validation "tok" "u9" "Zoe" "afk" [] 0 ⟨by decide, by decide, by decide⟩

/-- C3 counterexample: two records whose display names tie case-insensitively
are returned in store insertion order (identity b first), while the ordering
the claim asserts, with ties broken by identity, would list identity a first;
the code output differs from the claimed ordering at this store. -/
theorem C3_counterexample :
    (get_real_friends_list c3store 0).map FriendEntry.uuid = ["b", "a"] ∧
    (specOrderedSnapshot c3store 0).map FriendEntry.uuid = ["a", "b"] ∧
    get_real_friends_list c3store 0 ≠ specOrderedSnapshot c3store 0 :=
  ⟨by decide, by decide, by decide⟩

/-- C3 (amended): the status read returns one entry per stored record (its
output is a permutation of the per-record derived entries) and is sorted by
display name case-insensitively ascending; ties between equal case-folded
names keep the store iteration order (the sort is stable), they are not broken
by identity, so the order is a deterministic function of the ordered store
contents. -/
theorem C3_snapshot_order (store : Store) (now : Int) :
    List.Perm (get_real_friends_list store now) (store.map (friendEntry now)) ∧
    List.Sorted nameKeyLe (get_real_friends_list store now) ∧
    (∀ e₁ e₂ : FriendEntry, List.Sublist [e₁, e₂] (store.map (friendEntry now)) →
      lowerKey e₁.name = lowerKey e₂.name →
      List.Sublist [e₁, e₂] (get_real_friends_list store now)) := by
  refine ⟨List.perm_insertionSort nameKeyLe _, List.sorted_insertionSort nameKeyLe _, ?_⟩
  intro e₁ e₂ hsub hkey
  refine List.pair_sublist_insertionSort ?_ hsub
  show listCharLe (lowerKey e₁.name) (lowerKey e₂.name) = true
  rw [hkey]
  exact listCharLe_refl _

/-- C3 witness: the two tieing entries of c3store stay in insertion order in
the sorted output. -/
theorem C3_snapshot_order_witness :
    List.Sublist [friendEntry 0 ("b", ⟨"X", 0, "online"⟩), friendEntry 0 ("a", ⟨"x", 0, "online"⟩)]
      (get_real_friends_list c3store 0) :=
  (C3_snapshot_order c3store 0).2.2 _ _ (List.Sublist.refl _) (by decide)

/-- Store with a future last_seen relative to now = 0 and an online report. -/
def c4store : Store := [("u1", ⟨"Ann", 10, "online"⟩)]

/-- Store with a future last_seen relative to now = 0 and an idle report. -/
def c4wstore : Store := [("u1", ⟨"Ann", 10, "idle"⟩)]

/-- Store used by the C6 witness. -/
def c6store : Store := [("a", ⟨"Old", 1, "idle"⟩), ("z", ⟨"Zoe", 2, "online"⟩)]

/-- Request used by the C6 witness: re-submission for the present identity a. -/
def c6req : HeartbeatRequest := ⟨"a", "Ann", "online"⟩

/-- Store used by the C7 witness. -/
def c7store : Store := [("present", ⟨"Ann", 0, "online"⟩)]

/-- C4 counterexample: with last_seen = 10 and now = 0 the debug listing
exposes elapsed_seconds = -10; the elapsed value is not clamped to zero and a
negative value is exposed to the caller. -/
theorem C4_counterexample :
    (debug_get_users c4store 0).users.map DebugUserEntry.elapsed_seconds = [-10] ∧
    ¬ (0 : Int) ≤ -10 :=
  ⟨by decide, by decide⟩

/-- C4 (amended): elapsed is computed as now - last_seen with no clamping, so
the debug listing exposes a negative elapsed value for a record whose
last_seen lies in the future; such a record is nevertheless treated as not yet
expired by the status read: it is classified idle exactly when its
activity_state is idle and online otherwise, never offline. -/
theorem C4_future_last_seen (store : Store) (now : Int) (u : String) (r : HeartbeatRecord)
    (hmem : (u, r) ∈ store) (hfut : now < r.last_seen) :
    friendEntry now (u, r) ∈ get_real_friends_list store now ∧
    (friendEntry now (u, r)).state =
      (if r.activity_state = "idle" then "idle" else "online") ∧
    (friendEntry now (u, r)).state ≠ "offline" ∧
    debugUserEntry now (u, r) ∈ (debug_get_users store now).users ∧
    (debugUserEntry now (u, r)).elapsed_seconds < 0 := by
  have hneg : now - r.last_seen < 0 := by omega
  have hlt : ¬ (ONLINE_TIMEOUT_SECONDS ≤ now - r.last_seen) := by
    unfold ONLINE_TIMEOUT_SECONDS
    omega
  refine ⟨mem_get_real_friends_list store now (u, r) hmem, ?_, ?_, ?_, ?_⟩
  · show classify (now - r.last_seen) r.activity_state = _
    unfold classify
    rw [if_neg hlt]
  · show classify (now - r.last_seen) r.activity_state ≠ "offline"
    unfold classify
    rw [if_neg hlt]
    by_cases hI : r.activity_state = "idle"
    · rw [if_pos hI]
      decide
    · rw [if_neg hI]
      decide
  · exact List.mem_map_of_mem _ hmem
  · exact hneg

/-- C4 witness: a record with last_seen = 10 read at now = 0 appears in the
status read, is not offline, and its debug elapsed value is negative. -/
theorem C4_future_last_seen_witness :
    friendEntry 0 ("u1", ⟨"Ann", 10, "idle"⟩) ∈ get_real_friends_list c4wstore 0 ∧
    (friendEntry 0 ("u1", ⟨"Ann", 10, "idle"⟩)).state ≠ "offline" ∧
    (debugUserEntry 0 ("u1", ⟨"Ann", 10, "idle"⟩)).elapsed_seconds < 0 := by
  have h := C4_future_last_seen c4wstore 0 "u1" ⟨"Ann", 10, "idle"⟩ (by decide) (by decide)
  exact ⟨h.1, h.2.2.1, h.2.2.2.2⟩

/-- C5: every protected endpoint invoked with a missing credential, or with a
credential that differs from the process-wide shared secret, fails with the
authentication failure and returns the store unchanged: the underlying
operation is not performed and no record is created, modified or removed. -/
theorem C5_auth_gate (secret : String) (cred : Option String)
    (h : cred = none ∨ ∃ t, cred = some t ∧ t ≠ secret)
    (store : Store) (now : Int) (uuidField nameField activityField : Option String)
    (uuid : String) :
    post_heartbeat_endpoint secret cred uuidField nameField activityField store now =
      (store, Except.error ApiError.authFailure) ∧
    get_online_status_endpoint secret cred store now =
      (store, Except.error ApiError.authFailure) ∧
    debug_get_users_endpoint secret cred store now =
      (store, Except.error ApiError.authFailure) ∧
    debug_clear_users_endpoint secret cred store =
      (store, Except.error ApiError.authFailure) ∧
    debug_simulate_offline_endpoint secret cred store uuid now =
      (store, Except.error ApiError.authFailure) ∧
    debug_simulate_idle_endpoint secret cred store uuid now =
      (store, Except.error ApiError.authFailure) ∧
    debug_simulate_active_endpoint secret cred store uuid now =
      (store, Except.error ApiError.authFailure) := by
  have hfail : checkAuth secret cred = false := by
    rcases h with h | ⟨t, ht, hne⟩
    · rw [h]
      rfl
    · rw [ht]
      show (t == secret) = false
      exact beq_eq_false_iff_ne.mpr hne
  refine ⟨?_, ?_, ?_, ?_, ?_, ?_, ?_⟩ <;>
    simp [post_heartbeat_endpoint, get_online_status_endpoint, debug_get_users_endpoint,
      debug_clear_users_endpoint, debug_simulate_offline_endpoint,
      debug_simulate_idle_endpoint, debug_simulate_active_endpoint, hfail]

/-- C5 witness: a wrong token is rejected by all seven protected endpoints with
the store returned as it was. -/
theorem C5_auth_gate_witness :
    post_heartbeat_endpoint "secret-token" (some "wrong") (some "u1") (some "Ann") (some "online") [] 0 =
      ([], Except.error ApiError.authFailure) ∧
    get_online_status_endpoint "secret-token" (some "wrong") [] 0 =
      ([], Except.error ApiError.authFailure) ∧
    debug_get_users_endpoint "secret-token" (some "wrong") [] 0 =
      ([], Except.error ApiError.authFailure) ∧
    debug_clear_users_endpoint "secret-token" (some "wrong") [] =
      ([], Except.error ApiError.authFailure) ∧
    debug_simulate_offline_endpoint "secret-token" (some "wrong") [] "u1" 0 =
      ([], Except.error ApiError.authFailure) ∧
    debug_simulate_idle_endpoint "secret-token" (some "wrong") [] "u1" 0 =
      ([], Except.error ApiError.authFailure) ∧
    debug_simulate_active_endpoint "secret-token" (some "wrong") [] "u1" 0 =
      ([], Except.error ApiError.authFailure) :=
  C5_auth_gate "secret-token" (some "wrong") (Or.inr ⟨"wrong", rfl, by decide⟩)
    [] 0 (some "u1") (some "Ann") (some "online") "u1"

/-- C6: accepting a heartbeat writes exactly the record keyed by the submitted
identity: that key maps afterwards to the submitted name and activity state
with last_seen = now, every other key maps to exactly what it mapped to
before, and when the identity was already present the number of stored
records is unchanged, so no duplicate entry is created. -/
theorem C6_heartbeat_frame (store : Store) (req : HeartbeatRequest) (now : Int) :
    dictGet (post_heartbeat store req now).1 req.uuid =
      some ⟨req.name, now, req.activity_state⟩ ∧
    (∀ k : String, k ≠ req.uuid →
      dictGet (post_heartbeat store req now).1 k = dictGet store k) ∧
    ((dictGet store req.uuid).isSome →
      (post_heartbeat store req now).1.length = store.length) := by
  refine ⟨dictGet_dictSet_self store req.uuid _, ?_, ?_⟩
  · intro k hk
    exact dictGet_dictSet_ne store req.uuid _ k hk
  · intro h
    exact length_dictSet_of_isSome store req.uuid _ h

/-- C6 witness: re-submitting for the present identity a overwrites its record,
leaves identity z untouched and keeps the store size. -/
theorem C6_heartbeat_frame_witness :
    dictGet (post_heartbeat c6store c6req 7).1 "a" = some ⟨"Ann", 7, "online"⟩ ∧
    dictGet (post_heartbeat c6store c6req 7).1 "z" = dictGet c6store "z" ∧
    (post_heartbeat c6store c6req 7).1.length = c6store.length :=
  ⟨(C6_heartbeat_frame c6store c6req 7).1,
   (C6_heartbeat_frame c6store c6req 7).2.1 "z" (by decide),
   (C6_heartbeat_frame c6store c6req 7).2.2 (by decide)⟩

/-- C7: each debug simulate override invoked for an identity with no stored
record returns the not-found failure and the store after the call equals the
store before it. -/
theorem C7_simulate_not_found (store : Store) (uuid : String) (now : Int)
    (h : dictGet store uuid = none) :
    debug_simulate_offline store uuid now = (store, Except.error ApiError.notFound) ∧
    debug_simulate_idle store uuid now = (store, Except.error ApiError.notFound) ∧
    debug_simulate_active store uuid now = (store, Except.error ApiError.notFound) := by
  have h' : (dictGet store uuid).isSome = false := by
    rw [h]
    rfl
  refine ⟨?_, ?_, ?_⟩ <;>
    simp [debug_simulate_offline, debug_simulate_idle, debug_simulate_active, h']

/-- C7 witness: the overrides for the absent identity ghost fail with not-found
and do not change the one-record store. -/
theorem C7_simulate_not_found_witness :
    debug_simulate_offline c7store "ghost" 50 = (c7store, Except.error ApiError.notFound) ∧
    debug_simulate_idle c7store "ghost" 50 = (c7store, Except.error ApiError.notFound) ∧
    debug_simulate_active c7store "ghost" 50 = (c7store, Except.error ApiError.notFound) :=
  C7_simulate_not_found c7store "ghost" 50 (by decide)

/-- Store used by the C10 witness: a record whose last heartbeat is long past. -/
def c10store : Store := [("u1", ⟨"Ann", -999, "online"⟩)]

/-- C8 counterexample: a heartbeat whose identity field is the empty string
passes validation, succeeds, and writes a record keyed by the empty string,
contradicting the claimed rejection. -/
theorem C8_counterexample :
    post_heartbeat_endpoint "tok" (some "tok") (some "") (some "Ann") (some "online") [] 0 =
      ([("", ⟨"Ann", 0, "online"⟩)],
       Except.ok ⟨true, "Heartbeat received for Ann (state: online)", 0⟩) ∧
    dictGet [("", (⟨"Ann", 0, "online"⟩ : HeartbeatRecord))] "" = some ⟨"Ann", 0, "online"⟩ :=
  ⟨rfl, rfl⟩

/-- C8 (amended): an absent identity field is rejected with a validation
failure and no record is written; the empty string, however, is an accepted
identity: the submission succeeds and the record keyed by the empty string is
created or updated. -/
theorem C8_empty_identity (secret n : String) (nameField activityField : Option String)
    (store : Store) (now : Int) :
    post_heartbeat_endpoint secret (some secret) none nameField activityField store now =
      (store, Except.error ApiError.validationFailure) ∧
    post_heartbeat_endpoint secret (some secret) (some "") (some n) (some "online") store now =
      (dictSet store "" ⟨n, now, "online"⟩,
       Except.ok ⟨true, "Heartbeat received for " ++ n ++ " (state: " ++ "online" ++ ")", now⟩) ∧
    dictGet (dictSet store "" ⟨n, now, "online"⟩) "" = some ⟨n, now, "online"⟩ := by
  refine ⟨?_, ?_, dictGet_dictSet_self store "" _⟩
  · simp [post_heartbeat_endpoint, checkAuth, validateHeartbeat]
  · simp [post_heartbeat_endpoint, checkAuth, validateHeartbeat, activityStatePattern,
      post_heartbeat]

/-- C8 witness: an absent identity is rejected while the empty identity writes
a record, instantiated on the empty store. -/
theorem C8_empty_identity_witness :
    post_heartbeat_endpoint "tok" (some "tok") none (some "Zoe") (some "online") [] 3 =
      ([], Except.error ApiError.validationFailure) ∧
    post_heartbeat_endpoint "tok" (some "tok") (some "") (some "Zoe") (some "online") [] 3 =
      (dictSet [] "" ⟨"Zoe", 3, "online"⟩,
       Except.ok ⟨true, "Heartbeat received for " ++ "Zoe" ++ " (state: " ++ "online" ++ ")", 3⟩) ∧
    dictGet (dictSet [] "" ⟨"Zoe", 3, "online"⟩) "" = some ⟨"Zoe", 3, "online"⟩ :=
  C8_empty_identity "tok" "Zoe" (some "Zoe") (some "online") [] 3

/-- C9 counterexample: two heartbeats that differ only in the submitted
identity produce identical acknowledgements, so the acknowledgement does not
echo the submitted identity. -/
theorem C9_counterexample :
    (post_heartbeat [] ⟨"id-a", "Ann", "online"⟩ 0).2 =
      (post_heartbeat [] ⟨"id-b", "Ann", "online"⟩ 0).2 ∧
    ("id-a" : String) ≠ "id-b" :=
  ⟨rfl, by decide⟩

/-- C9 (amended): the acknowledgement of an accepted heartbeat reports
success, echoes the display name and activity state inside its message, and
carries a server timestamp taken from the single now reading that is also
written to the store, so the acknowledged timestamp equals the stored
last_seen; the identity is not echoed. -/
theorem C9_ack_contents (store : Store) (req : HeartbeatRequest) (now : Int) :
    (post_heartbeat store req now).2.success = true ∧
    (post_heartbeat store req now).2.timestamp = now ∧
    (post_heartbeat store req now).2.message =
      "Heartbeat received for " ++ req.name ++ " (state: " ++ req.activity_state ++ ")" ∧
    dictGet (post_heartbeat store req now).1 req.uuid =
      some ⟨req.name, now, req.activity_state⟩ ∧
    Option.map HeartbeatRecord.last_seen (dictGet (post_heartbeat store req now).1 req.uuid) =
      some ((post_heartbeat store req now).2.timestamp) := by
  refine ⟨rfl, rfl, rfl, dictGet_dictSet_self store req.uuid _, ?_⟩
  show Option.map HeartbeatRecord.last_seen
      (dictGet (dictSet store req.uuid ⟨req.name, now, req.activity_state⟩) req.uuid) = _
  rw [dictGet_dictSet_self]
  rfl

/-- C10: on an identity with a stored record, the debug idle and active
overrides set both the activity state and last_seen = now, so the status read
at that same instant contains the derived entry for that identity with
classification idle (for the idle override) and online (for the active
override), never offline: the forced state is not masked by a stale
last_seen. -/
theorem C10_force_fresh (store : Store) (uuid : String) (now : Int)
    (r : HeartbeatRecord) (h : dictGet store uuid = some r) :
    ({ uuid := uuid, name := r.name, state := "idle", activity_state := "idle",
       last_seen := now } : FriendEntry) ∈
      get_real_friends_list (debug_simulate_idle store uuid now).1 now ∧
    ({ uuid := uuid, name := r.name, state := "online", activity_state := "online",
       last_seen := now } : FriendEntry) ∈
      get_real_friends_list (debug_simulate_active store uuid now).1 now := by
  have hs : (dictGet store uuid).isSome = true := by
    rw [h]
    rfl
  constructor
  · have hstore : (debug_simulate_idle store uuid now).1 =
        dictUpdate store uuid (fun r => { r with activity_state := "idle", last_seen := now }) := by
      simp [debug_simulate_idle, hs]
    have hmem := mem_dictUpdate store uuid
      (fun r => { r with activity_state := "idle", last_seen := now }) r h
    have he : friendEntry now (uuid, { r with activity_state := "idle", last_seen := now }) =
        { uuid := uuid, name := r.name, state := "idle", activity_state := "idle",
          last_seen := now } := by
      simp [friendEntry, classify, ONLINE_TIMEOUT_SECONDS]
    rw [hstore]
    exact he ▸ mem_get_real_friends_list _ now _ hmem
  · have hstore : (debug_simulate_active store uuid now).1 =
        dictUpdate store uuid (fun r => { r with activity_state := "online", last_seen := now }) := by
      simp [debug_simulate_active, hs]
    have hmem := mem_dictUpdate store uuid
      (fun r => { r with activity_state := "online", last_seen := now }) r h
    have he : friendEntry now (uuid, { r with activity_state := "online", last_seen := now }) =
        { uuid := uuid, name := r.name, state := "online", activity_state := "online",
          last_seen := now } := by
      simp [friendEntry, classify, ONLINE_TIMEOUT_SECONDS]
    rw [hstore]
    exact he ▸ mem_get_real_friends_list _ now _ hmem

/-- C10 witness: after forcing idle and active on a long-stale record, the
status read at the same instant shows the idle and the online entry. -/
theorem C10_force_fresh_witness :
    ({ uuid := "u1", name := "Ann", state := "idle", activity_state := "idle",
       last_seen := 5 } : FriendEntry) ∈
      get_real_friends_list (debug_simulate_idle c10store "u1" 5).1 5 ∧
    ({ uuid := "u1", name := "Ann", state := "online", activity_state := "online",
       last_seen := 5 } : FriendEntry) ∈
      get_real_friends_list (debug_simulate_active c10store "u1" 5).1 5 :=
  C10_force_fresh c10store "u1" 5 ⟨"Ann", -999, "online"⟩ (by decide)

end OnlineStatus
